import Mathlib

/-
  Shallow embedding of the accessor data engine of bevy_gltf_transformer
  (src/data/{accessible,dense,sparse,meta}.rs, src/data.rs and the
  ElementShape / ElementType value model of src/wrap/accessor.rs).

  Conventions:
  - usize is modelled as Nat together with explicit release-mode wrapping
    (values mod 2 ^ 64) at the arithmetic operations where Rust would wrap,
    and explicit Option results for checked_mul / checked_add.
  - Byte buffers are List Nat (each entry one byte).
  - f32 values are represented by their IEEE-754 little-endian bit patterns
    (a Nat); the code never does float arithmetic, only byte decoding, so
    this representation is exact.
  - A Rust function that can panic is modelled with an Option result whose
    none means "the program aborts"; the Rust-level Option then sits inside
    (some none = the function returned None).
  - The while loop of IndexData::find_replacement is not structurally
    terminating, so it is modelled with explicit fuel; GRes.diverge means
    the fuel ran out.
-/

set_option maxHeartbeats 1000000

def USIZE : Nat := 2 ^ 64

/-- Release-mode wrapping subtraction on usize (used for count - 1). -/
def wrapSub (a b : Nat) : Nat := (a % USIZE + (USIZE - b % USIZE)) % USIZE

/-- usize::checked_mul. -/
def checked_mul (a b : Nat) : Option Nat :=
  if a * b < USIZE then some (a * b) else none

/-- usize::checked_add. -/
def checked_add (a b : Nat) : Option Nat :=
  if a + b < USIZE then some (a + b) else none

/-- usize::div_ceil(2), as used for the binary-search midpoint. -/
def div_ceil2 (x : Nat) : Nat := (x + 1) / 2

/-- src/wrap/accessor.rs: ElementType. -/
inductive ElementType where
  | U8 | I8 | U16 | I16 | U32 | F32
deriving DecidableEq, Fintype, Repr

/-- gltf::accessor::DataType (external enum used by the code). -/
inductive DataType where
  | I8 | U8 | I16 | U16 | U32 | F32
deriving DecidableEq, Fintype, Repr

/-- gltf::accessor::Dimensions (external enum used by the code). -/
inductive Dimensions where
  | Scalar | Vec2 | Vec3 | Vec4 | Mat2 | Mat3 | Mat4
deriving DecidableEq, Fintype, Repr

/-- src/wrap/accessor.rs: ElementType::size. -/
def ElementType.size : ElementType → Nat
  | .U8 => 1
  | .I8 => 1
  | .U16 => 2
  | .I16 => 2
  | .U32 => 4
  | .F32 => 4

/-- src/wrap/accessor.rs: ElementShape. -/
inductive ElementShape where
  | Scalar (t : ElementType)
  | Vec2 (t : ElementType)
  | Vec3 (t : ElementType)
  | Vec4 (t : ElementType)
  | Mat2 (t : ElementType)
  | Mat3 (t : ElementType)
  | Mat4 (t : ElementType)
deriving DecidableEq, Fintype, Repr

/-- src/wrap/accessor.rs: ElementShape::size. -/
def ElementShape.size : ElementShape → Nat
  | .Scalar t => t.size
  | .Vec2 t => 2 * t.size
  | .Vec3 t => 3 * t.size
  | .Vec4 t => 4 * t.size
  | .Mat2 t => 4 * t.size
  | .Mat3 t => 9 * t.size
  | .Mat4 t => 16 * t.size

/-- src/wrap/accessor.rs: the ElementType to DataType conversion inside
ElementShape::data_type. -/
def ElementType.toDataType : ElementType → DataType
  | .U8 => .U8
  | .I8 => .I8
  | .U16 => .U16
  | .I16 => .I16
  | .U32 => .U32
  | .F32 => .F32

/-- src/wrap/accessor.rs: ElementShape::data_type. -/
def ElementShape.data_type : ElementShape → DataType
  | .Scalar t => t.toDataType
  | .Vec2 t => t.toDataType
  | .Vec3 t => t.toDataType
  | .Vec4 t => t.toDataType
  | .Mat2 t => t.toDataType
  | .Mat3 t => t.toDataType
  | .Mat4 t => t.toDataType

/-- src/wrap/accessor.rs: ElementShape::dimensions. -/
def ElementShape.dimensions : ElementShape → Dimensions
  | .Scalar _ => .Scalar
  | .Vec2 _ => .Vec2
  | .Vec3 _ => .Vec3
  | .Vec4 _ => .Vec4
  | .Mat2 _ => .Mat2
  | .Mat3 _ => .Mat3
  | .Mat4 _ => .Mat4

/-- src/data/accessible.rs: Element — a consuming cursor over one element
of raw bytes, together with the expected shape. -/
structure Element where
  data : List Nat
  shape : ElementShape
deriving DecidableEq, Repr

/-- Element::read_u8: data[0] panics (none) on an empty slice. -/
def Element.read_u8 (e : Element) : Option (Nat × Element) :=
  match e.data with
  | [] => none
  | b :: rest => some (b, { e with data := rest })

/-- Element::read_u16: split_first_chunk of 2 bytes, little-endian. -/
def Element.read_u16 (e : Element) : Option (Nat × Element) :=
  match e.data with
  | b0 :: b1 :: rest => some (b0 + 256 * b1, { e with data := rest })
  | _ => none

/-- Element::read_u32: split_first_chunk of 4 bytes, little-endian. -/
def Element.read_u32 (e : Element) : Option (Nat × Element) :=
  match e.data with
  | b0 :: b1 :: b2 :: b3 :: rest =>
      some (b0 + 256 * b1 + 65536 * b2 + 16777216 * b3, { e with data := rest })
  | _ => none

/-- Element::read_f32: same bytes as read_u32; the f32 is represented by its
bit pattern. -/
def Element.read_f32 (e : Element) : Option (Nat × Element) :=
  match e.data with
  | b0 :: b1 :: b2 :: b3 :: rest =>
      some (b0 + 256 * b1 + 65536 * b2 + 16777216 * b3, { e with data := rest })
  | _ => none

/-- Reinterpretation of an unsigned value as a signed one (Rust as-cast). -/
def toSigned (m v : Nat) : Int := if v < m / 2 then (v : Int) else (v : Int) - (m : Int)

/-- Element::read_i8: read_u8 then an as-cast to i8. -/
def Element.read_i8 (e : Element) : Option (Int × Element) :=
  (e.read_u8).map fun p => (toSigned 256 p.1, p.2)

/-- Element::read_i16: read_u16 then an as-cast to i16. -/
def Element.read_i16 (e : Element) : Option (Int × Element) :=
  (e.read_u16).map fun p => (toSigned 65536 p.1, p.2)

/-- One decoded value: the flattened list of component values (f32 components
as bit patterns, signed integers as Int, unsigned as nonnegative Int). -/
abbrev Val : Type := List Int

/-- src/data/accessible.rs: AccessorData::KIND for each component type. -/
def kindOf : ElementType → DataType
  | .U8 => .U8
  | .I8 => .I8
  | .U16 => .U16
  | .I16 => .I16
  | .U32 => .U32
  | .F32 => .F32

/-- src/data/accessible.rs: AccessorData::get for each component type. -/
def readComp : ElementType → Element → Option (Int × Element)
  | .U8, e => (e.read_u8).map fun p => ((p.1 : Int), p.2)
  | .I8, e => e.read_i8
  | .U16, e => (e.read_u16).map fun p => ((p.1 : Int), p.2)
  | .I16, e => e.read_i16
  | .U32, e => (e.read_u32).map fun p => ((p.1 : Int), p.2)
  | .F32, e => (e.read_f32).map fun p => ((p.1 : Int), p.2)

/-- The closed set of Accessible target types implemented by the code:
the scalar components, the generic arrays and matrices over a component
type, and the semantic glam types. -/
inductive TargetType where
  | scalar (c : ElementType)
  | arr2 (c : ElementType)
  | arr3 (c : ElementType)
  | arr4 (c : ElementType)
  | mat2 (c : ElementType)
  | mat3 (c : ElementType)
  | mat4 (c : ElementType)
  | vec2 | vec3 | vec3A | quat | mat2f | mat3f | mat3Af | mat4f
deriving DecidableEq, Fintype, Repr

/-- Rust primitive type names. -/
def compName : ElementType → String
  | .U8 => "u8"
  | .I8 => "i8"
  | .U16 => "u16"
  | .I16 => "i16"
  | .U32 => "u32"
  | .F32 => "f32"

/-- std::any::type_name for each target type, carried in AccessorType errors. -/
def typeName : TargetType → String
  | .scalar c => compName c
  | .arr2 c => "[" ++ compName c ++ "; 2]"
  | .arr3 c => "[" ++ compName c ++ "; 3]"
  | .arr4 c => "[" ++ compName c ++ "; 4]"
  | .mat2 c => "[[" ++ compName c ++ "; 2]; 2]"
  | .mat3 c => "[[" ++ compName c ++ "; 3]; 3]"
  | .mat4 c => "[[" ++ compName c ++ "; 4]; 4]"
  | .vec2 => "glam::f32::vec2::Vec2"
  | .vec3 => "glam::f32::vec3::Vec3"
  | .vec3A => "glam::f32::sse2::vec3a::Vec3A"
  | .quat => "glam::f32::sse2::quat::Quat"
  | .mat2f => "glam::f32::sse2::mat2::Mat2"
  | .mat3f => "glam::f32::mat3::Mat3"
  | .mat3Af => "glam::f32::sse2::mat3a::Mat3A"
  | .mat4f => "glam::f32::sse2::mat4::Mat4"

/-- src/data/accessible.rs: Accessible::validate_accessor.  The generic
AccessorShape impls compare data_type with KIND and dimensions with DIM;
the semantic glam impls pattern-match one specific F32-backed shape. -/
def validate_accessor : TargetType → ElementShape → Bool
  | .scalar c, s => decide (s.data_type = kindOf c) && decide (s.dimensions = .Scalar)
  | .arr2 c, s => decide (s.data_type = kindOf c) && decide (s.dimensions = .Vec2)
  | .arr3 c, s => decide (s.data_type = kindOf c) && decide (s.dimensions = .Vec3)
  | .arr4 c, s => decide (s.data_type = kindOf c) && decide (s.dimensions = .Vec4)
  | .mat2 c, s => decide (s.data_type = kindOf c) && decide (s.dimensions = .Mat2)
  | .mat3 c, s => decide (s.data_type = kindOf c) && decide (s.dimensions = .Mat3)
  | .mat4 c, s => decide (s.data_type = kindOf c) && decide (s.dimensions = .Mat4)
  | .vec2, s => match s with | .Vec2 .F32 => true | _ => false
  | .vec3, s => match s with | .Vec3 .F32 => true | _ => false
  | .vec3A, s => match s with | .Vec3 .F32 => true | _ => false
  | .quat, s => match s with | .Vec4 .F32 => true | _ => false
  | .mat2f, s => match s with | .Mat2 .F32 => true | _ => false
  | .mat3f, s => match s with | .Mat3 .F32 => true | _ => false
  | .mat3Af, s => match s with | .Mat3 .F32 => true | _ => false
  | .mat4f, s => match s with | .Mat4 .F32 => true | _ => false

/-- The bit pattern of 1.0f32 (used by Quat::IDENTITY). -/
def oneF32 : Int := 1065353216

/-- src/data/accessible.rs: Accessible::zero.  The generic impls return the
ZERO constant and ignore the shape; Quat returns its identity. -/
def TargetType.zero : TargetType → ElementShape → Val
  | .scalar _, _ => [0]
  | .arr2 _, _ => List.replicate 2 0
  | .arr3 _, _ => List.replicate 3 0
  | .arr4 _, _ => List.replicate 4 0
  | .mat2 _, _ => List.replicate 4 0
  | .mat3 _, _ => List.replicate 9 0
  | .mat4 _, _ => List.replicate 16 0
  | .vec2, _ => List.replicate 2 0
  | .vec3, _ => List.replicate 3 0
  | .vec3A, _ => List.replicate 3 0
  | .quat, _ => [0, 0, 0, oneF32]
  | .mat2f, _ => List.replicate 4 0
  | .mat3f, _ => List.replicate 9 0
  | .mat3Af, _ => List.replicate 9 0
  | .mat4f, _ => List.replicate 16 0

/-- Chain n sequential component reads (the unrolled T::get calls of the
generic AccessorShape impls and the unrolled read_f32 calls of the glam
impls, which read components strictly left to right). -/
def readComps (c : ElementType) : Nat → Element → Option (Val × Element)
  | 0, e => some ([], e)
  | n + 1, e =>
    match readComp c e with
    | none => none
    | some (v, e1) =>
      match readComps c n e1 with
      | none => none
      | some (vs, e2) => some (v :: vs, e2)

/-- src/data/accessible.rs: Accessible::from_element for every implemented
target type.  Each impl is a fixed sequence of component reads; the number
of reads per constructor matches the unrolled source (2 / 3 / 4 / 4 / 9 / 16
components, column-major, and the glam impls always read f32). -/
def TargetType.from_element : TargetType → Element → Option (Val × Element)
  | .scalar c, e => readComps c 1 e
  | .arr2 c, e => readComps c 2 e
  | .arr3 c, e => readComps c 3 e
  | .arr4 c, e => readComps c 4 e
  | .mat2 c, e => readComps c 4 e
  | .mat3 c, e => readComps c 9 e
  | .mat4 c, e => readComps c 16 e
  | .vec2, e => readComps .F32 2 e
  | .vec3, e => readComps .F32 3 e
  | .vec3A, e => readComps .F32 3 e
  | .quat, e => readComps .F32 4 e
  | .mat2f, e => readComps .F32 4 e
  | .mat3f, e => readComps .F32 9 e
  | .mat3Af, e => readComps .F32 9 e
  | .mat4f, e => readComps .F32 16 e

/-- src/data/meta.rs: Meta. -/
structure Meta where
  shape : ElementShape
  elem_size : Nat
  stride : Nat
  count : Nat
  normalized : Bool
deriving DecidableEq, Repr

/-- src/data/dense.rs: DenseData (the phantom type parameter is erased;
typed operations take the TargetType explicitly). -/
structure DenseData where
  meta : Meta
  view : List Nat
deriving DecidableEq, Repr

namespace DenseData

/-- src/data/dense.rs: DenseData::get_raw.  Returns the bytes of element
index, or none when the index is at or past count, the checked arithmetic
overflows, or the byte range fails the (strict) view-length checks. -/
def get_raw (d : DenseData) (index : Nat) : Option (List Nat) :=
  match checked_mul index d.meta.stride with
  | none => none
  | some raw_index =>
    match checked_add raw_index d.meta.elem_size with
    | none => none
    | some raw_end_index =>
      if d.meta.count > index ∧ raw_index < d.view.length ∧
          raw_end_index < d.view.length then
        some ((d.view.drop raw_index).take (raw_end_index - raw_index))
      else
        none

/-- src/data/dense.rs: DenseData::element_size. -/
def element_size (d : DenseData) : Nat := d.meta.elem_size

/-- src/data/dense.rs: DenseData::count. -/
def count (d : DenseData) : Nat := d.meta.count

/-- src/data/dense.rs: DenseData::normalized. -/
def normalized (d : DenseData) : Bool := d.meta.normalized

/-- src/data/dense.rs: DenseData::data_type. -/
def data_type (d : DenseData) : DataType := d.meta.shape.data_type

/-- src/data/dense.rs: DenseData::dimensions. -/
def dimensions (d : DenseData) : Dimensions := d.meta.shape.dimensions

/-- src/data/dense.rs: DenseData::get.  Outer none is a panic inside
from_element; some none is the Rust None from get_raw. -/
def get (t : TargetType) (d : DenseData) (index : Nat) : Option (Option Val) :=
  match d.get_raw index with
  | none => some none
  | some data =>
    match t.from_element { data := data, shape := d.meta.shape } with
    | none => none
    | some (v, _) => some (some v)

end DenseData

/-- src/error.rs: the Error::AccessorType variant (the only error raised by
this layer). -/
inductive ErrorE where
  | AccessorType (requested : String) (dt : DataType) (dim : Dimensions)
deriving DecidableEq, Repr

namespace DenseData

/-- src/data/dense.rs: DenseData::try_with_type.  On success the result
reuses the same meta and the same view (the phantom marker is the only
change, which the embedding erases). -/
def try_with_type (t : TargetType) (d : DenseData) : Except ErrorE DenseData :=
  match if validate_accessor t d.meta.shape then
          some { meta := d.meta, view := d.view : DenseData }
        else none with
  | some r => .ok r
  | none => .error (.AccessorType (typeName t) d.data_type d.dimensions)

/-- src/data/dense.rs: DenseData::with_type (unchecked reinterpretation). -/
def with_type (d : DenseData) : DenseData :=
  { meta := d.meta, view := d.view }

end DenseData

/-- src/data/dense.rs: DenseDataIter. -/
structure DenseDataIter where
  counter : Nat
  accessor : DenseData
deriving DecidableEq, Repr

namespace DenseDataIter

/-- src/data/dense.rs: DenseDataIter::new. -/
def new (d : DenseData) : DenseDataIter := { counter := 0, accessor := d }

/-- src/data/dense.rs: ExactSizeIterator::len for DenseDataIter. -/
def len (it : DenseDataIter) : Nat := it.accessor.meta.count - it.counter

/-- src/data/dense.rs: Iterator::next for DenseDataIter.  Outer none is a
panic; the produced pair is (returned item, successor state). -/
def next (t : TargetType) (it : DenseDataIter) :
    Option (Option Val × DenseDataIter) :=
  if it.counter < it.accessor.count then
    match DenseData.get t it.accessor it.counter with
    | none => none
    | some none => some (none, it)
    | some (some v) => some (some v, { it with counter := it.counter + 1 })
  else
    some (none, it)

end DenseDataIter

/-- Result of a fuelled computation: diverge means the fuel ran out (the
Rust loop did not terminate within the given number of iterations), fatal
means the program panicked, ret is a normal return. -/
inductive GRes (α : Type) where
  | diverge
  | fatal
  | ret (a : α)
deriving DecidableEq, Repr

/-- src/data.rs: the static ZEROS buffer (256 zero bytes). -/
def ZEROS : List Nat := List.replicate 256 0

/-- src/data/sparse.rs: IndexData — a tagged union over the three index
widths, each a dense view. -/
inductive IndexData where
  | U8 (d : DenseData)
  | U16 (d : DenseData)
  | U32 (d : DenseData)
deriving DecidableEq, Repr

namespace IndexData

/-- src/data/sparse.rs: IndexData::count. -/
def count : IndexData → Nat
  | .U8 d => d.count
  | .U16 d => d.count
  | .U32 d => d.count

/-- src/data/sparse.rs: IndexData::get — the typed DenseData get for the
active width followed by an as-usize cast.  Outer none is a panic inside
the element read (possible only when elem_size is 0); some none is the
Rust None. -/
def get (ix : IndexData) (n : Nat) : Option (Option Nat) :=
  match ix with
  | .U8 d =>
    match d.get_raw n with
    | none => some none
    | some data =>
      match Element.read_u8 { data := data, shape := d.meta.shape } with
      | none => none
      | some (v, _) => some (some v)
  | .U16 d =>
    match d.get_raw n with
    | none => some none
    | some data =>
      match Element.read_u16 { data := data, shape := d.meta.shape } with
      | none => none
      | some (v, _) => some (some v)
  | .U32 d =>
    match d.get_raw n with
    | none => some none
    | some data =>
      match Element.read_u32 { data := data, shape := d.meta.shape } with
      | none => none
      | some (v, _) => some (some v)

/-- src/data/sparse.rs: the while loop inside IndexData::find_replacement,
made total with explicit fuel.  The loop keeps bounds left / right, probes
the ceiling midpoint (left + right).div_ceil(2), returns Some idx on an
exact match, moves left to idx + 1 when the stored value is below the
target, and moves right down to idx when it is above; after the loop the
final candidate at left is checked.  A failed probe propagates None through
the question-mark operator.  All usize arithmetic wraps (release mode). -/
def bin_search_loop (ix : IndexData) (target : Nat) :
    Nat → Nat → Nat → GRes (Option Nat)
  | 0, _, _ => .diverge
  | fuel + 1, left, right =>
    if left ≠ right then
      let idx := div_ceil2 ((left + right) % USIZE)
      match ix.get idx with
      | none => .fatal
      | some none => .ret none
      | some (some v) =>
        if v = target then .ret (some idx)
        else if v < target then
          bin_search_loop ix target fuel ((idx + 1) % USIZE) right
        else
          bin_search_loop ix target fuel left idx
    else
      match ix.get left with
      | none => .fatal
      | some none => .ret none
      | some (some v) => .ret (if v = target then some left else none)

/-- src/data/sparse.rs: IndexData::find_replacement.  The initial right
bound is count - 1, a wrapping usize subtraction (count 0 wraps to
2 ^ 64 - 1 in release mode). -/
def find_replacement (fuel : Nat) (ix : IndexData) (target : Nat) :
    GRes (Option Nat) :=
  bin_search_loop ix target fuel 0 (wrapSub ix.count 1)

end IndexData

/-- src/data/sparse.rs: SparseData (phantom type parameter erased). -/
structure SparseData where
  meta : Meta
  base : Option DenseData
  indices : IndexData
  values : DenseData
deriving DecidableEq, Repr

namespace SparseData

/-- src/data/sparse.rs: SparseData::count. -/
def count (s : SparseData) : Nat := s.meta.count

/-- src/data/sparse.rs: SparseData::element_size. -/
def element_size (s : SparseData) : Nat := s.meta.elem_size

/-- src/data/sparse.rs: SparseData::normalized. -/
def normalized (s : SparseData) : Bool := s.meta.normalized

/-- src/data/sparse.rs: SparseData::data_type. -/
def data_type (s : SparseData) : DataType := s.meta.shape.data_type

/-- src/data/sparse.rs: SparseData::dimensions. -/
def dimensions (s : SparseData) : Dimensions := s.meta.shape.dimensions

/-- src/data/sparse.rs: SparseData::get_raw.  An override position wins;
otherwise the base view is consulted; without a base a slice of the static
ZEROS buffer of elem_size bytes is returned (a slice panic when elem_size
exceeds 256). -/
def get_raw (fuel : Nat) (s : SparseData) (index : Nat) :
    GRes (Option (List Nat)) :=
  match IndexData.find_replacement fuel s.indices index with
  | .diverge => .diverge
  | .fatal => .fatal
  | .ret (some replace_idx) => .ret (s.values.get_raw replace_idx)
  | .ret none =>
    match s.base with
    | some d => .ret (d.get_raw index)
    | none =>
      if s.meta.elem_size ≤ 256 then .ret (some (ZEROS.take s.meta.elem_size))
      else .fatal

/-- src/data/sparse.rs: SparseData::get (typed). -/
def get (fuel : Nat) (t : TargetType) (s : SparseData) (index : Nat) :
    GRes (Option Val) :=
  match IndexData.find_replacement fuel s.indices index with
  | .diverge => .diverge
  | .fatal => .fatal
  | .ret (some replace_idx) =>
    match DenseData.get t s.values replace_idx with
    | none => .fatal
    | some r => .ret r
  | .ret none =>
    match s.base with
    | some d =>
      match DenseData.get t d index with
      | none => .fatal
      | some r => .ret r
    | none => .ret (some (t.zero s.meta.shape))

/-- src/data/sparse.rs: SparseData::try_with_type.  On success every field
is reused unchanged (base / indices / values pass through with_type, which
only changes the erased phantom marker). -/
def try_with_type (t : TargetType) (s : SparseData) : Except ErrorE SparseData :=
  match if validate_accessor t s.meta.shape then
          some { meta := s.meta, base := s.base.map DenseData.with_type,
                 indices := s.indices, values := s.values.with_type : SparseData }
        else none with
  | some r => .ok r
  | none => .error (.AccessorType (typeName t) s.data_type s.dimensions)

/-- src/data/sparse.rs: SparseData::with_type (unchecked). -/
def with_type (s : SparseData) : SparseData :=
  { meta := s.meta, base := s.base.map DenseData.with_type,
    indices := s.indices, values := s.values.with_type }

end SparseData

/-- src/data/sparse.rs: IndexIter — iterator over the stored index values. -/
structure IndexIter where
  counter : Nat
  indices : IndexData
deriving DecidableEq, Repr

/-- src/data/sparse.rs: Iterator::next for IndexIter.  Note that when the
inner get fails its None is returned as the stream item, ending any zip
built on top of this iterator. -/
def IndexIter.next (it : IndexIter) : Option (Option Nat × IndexIter) :=
  if it.counter < it.indices.count then
    match it.indices.get it.counter with
    | none => none
    | some out => some (out, { it with counter := it.counter + 1 })
  else
    some (none, it)

/-- src/data/sparse.rs: IndexData::iter. -/
def IndexData.iter (ix : IndexData) : IndexIter := { counter := 0, indices := ix }

/-- The Zip of the index iterator with the values iterator (std::iter::Zip:
the first stream is advanced first; when it yields None the second is not
advanced). -/
structure ZipIV where
  a : IndexIter
  b : DenseDataIter
deriving DecidableEq, Repr

/-- std::iter::Zip::next over (IndexIter, DenseDataIter). -/
def ZipIV.next (t : TargetType) (z : ZipIV) :
    Option (Option (Nat × Val) × ZipIV) :=
  match z.a.next with
  | none => none
  | some (none, a1) => some (none, { z with a := a1 })
  | some (some x, a1) =>
    match z.b.next t with
    | none => none
    | some (none, b1) => some (none, { a := a1, b := b1 })
    | some (some y, b1) => some (some (x, y), { a := a1, b := b1 })

/-- std::iter::Peekable over the zipped override stream: peeked caches the
result of the underlying next call once peek has been used. -/
structure PeekZip where
  z : ZipIV
  peeked : Option (Option (Nat × Val))
deriving DecidableEq, Repr

/-- Peekable::peek (advances and caches the underlying stream on first use). -/
def PeekZip.peek (t : TargetType) (p : PeekZip) :
    Option (Option (Nat × Val) × PeekZip) :=
  match p.peeked with
  | some x => some (x, p)
  | none =>
    match p.z.next t with
    | none => none
    | some (x, z1) => some (x, { z := z1, peeked := some x })

/-- Peekable::next (consumes the cache when present). -/
def PeekZip.next (t : TargetType) (p : PeekZip) :
    Option (Option (Nat × Val) × PeekZip) :=
  match p.peeked with
  | some x => some (x, { p with peeked := none })
  | none =>
    match p.z.next t with
    | none => none
    | some (x, z1) => some (x, { z := z1, peeked := none })

/-- src/data/sparse.rs: SparseDataIter. -/
structure SparseDataIter where
  counter : Nat
  meta : Meta
  replace : PeekZip
  base : Option DenseDataIter
deriving DecidableEq, Repr

namespace SparseDataIter

/-- src/data/sparse.rs: ExactSizeIterator::len for SparseDataIter. -/
def len (it : SparseDataIter) : Nat := it.meta.count - it.counter

/-- src/data/sparse.rs: Iterator::next for SparseDataIter.  When the
counter has reached meta.count the iterator stops.  Otherwise the pending
override is peeked: on a logical-index match the override is consumed and
the counter advanced; in every other case the base iterator is advanced
(or the zero value emitted when there is no base) and the counter is left
unchanged, exactly as in the source. -/
def next (t : TargetType) (it : SparseDataIter) :
    Option (Option Val × SparseDataIter) :=
  if it.counter ≥ it.meta.count then
    some (none, it)
  else
    match PeekZip.peek t it.replace with
    | none => none
    | some (peekRes, rep1) =>
      match peekRes with
      | some (idx, _) =>
        if idx = it.counter then
          match PeekZip.next t rep1 with
          | none => none
          | some (some (_, v), rep2) =>
            some (some v, { it with counter := it.counter + 1, replace := rep2 })
          | some (none, _) => none
        else
          match it.base with
          | some b =>
            match b.next t with
            | none => none
            | some (r, b1) =>
              some (r, { it with replace := rep1, base := some b1 })
          | none =>
            some (some (t.zero it.meta.shape), { it with replace := rep1 })
      | none =>
        match it.base with
        | some b =>
          match b.next t with
          | none => none
          | some (r, b1) =>
            some (r, { it with replace := rep1, base := some b1 })
        | none =>
          some (some (t.zero it.meta.shape), { it with replace := rep1 })

end SparseDataIter

/-- src/data/sparse.rs: SparseData::iter — counter 0, the peekable zip of
the index stream with the values stream, and an optional base iterator. -/
def SparseData.iter (s : SparseData) : SparseDataIter :=
  { counter := 0
    meta := s.meta
    replace := { z := { a := s.indices.iter, b := DenseDataIter.new s.values },
                 peeked := none }
    base := s.base.map DenseDataIter.new }

/-- src/data/dense.rs: DenseData::iter. -/
def DenseData.iter (d : DenseData) : DenseDataIter := DenseDataIter.new d

/-- src/data.rs: the Data tagged union over the dense and sparse variants. -/
inductive Data where
  | Dense (d : DenseData)
  | Sparse (s : SparseData)
deriving DecidableEq, Repr

namespace Data

/-- src/data.rs: Data::count (dispatch to the active variant). -/
def count : Data → Nat
  | .Dense d => d.count
  | .Sparse s => s.count

/-- src/data.rs: Data::get_raw (dispatch; the sparse arm needs fuel). -/
def get_raw (fuel : Nat) : Data → Nat → GRes (Option (List Nat))
  | .Dense d, index => .ret (d.get_raw index)
  | .Sparse s, index => s.get_raw fuel index

/-- src/data.rs: Data::get (dispatch; a panic inside the dense element
conversion is fatal). -/
def get (fuel : Nat) (t : TargetType) : Data → Nat → GRes (Option Val)
  | .Dense d, index =>
    match DenseData.get t d index with
    | none => .fatal
    | some r => .ret r
  | .Sparse s, index => s.get fuel t index

/-- src/data.rs: Data::normalized. -/
def normalized : Data → Bool
  | .Dense d => d.normalized
  | .Sparse s => s.normalized

/-- src/data.rs: Data::try_with_type. -/
def try_with_type (t : TargetType) : Data → Except ErrorE Data
  | .Dense d =>
    match d.try_with_type t with
    | .ok r => .ok (.Dense r)
    | .error e => .error e
  | .Sparse s =>
    match s.try_with_type t with
    | .ok r => .ok (.Sparse r)
    | .error e => .error e

end Data

/-- Run a fixed number of next calls on a sparse iterator, collecting the
returned items (none is a panic anywhere along the run). -/
def iterCollect (t : TargetType) : Nat → SparseDataIter → Option (List (Option Val))
  | 0, _ => some []
  | n + 1, it =>
    match SparseDataIter.next t it with
    | none => none
    | some (r, it1) => (iterCollect t n it1).map (r :: ·)

/-
  Concrete instances used by the counterexample / failing-input theorems.
  10.0f32 has bit pattern 0x41200000 (little-endian bytes [0,0,32,65]) and
  20.0f32 has bit pattern 0x41A00000 (bytes [0,0,160,65]).
-/

/-- Outer meta of the sparse end-to-end scenario: Vec3 of f32, count 4. -/
def metaVec3f : Meta :=
  { shape := .Vec3 .F32, elem_size := 12, stride := 12, count := 4,
    normalized := false }

/-- Meta of the U16 index sub-view (two stored indices). -/
def metaIdxU16 : Meta :=
  { shape := .Scalar .U16, elem_size := 2, stride := 2, count := 2,
    normalized := false }

/-- Meta of the values sub-view (two Vec3 of f32 elements). -/
def metaVals3f : Meta :=
  { shape := .Vec3 .F32, elem_size := 12, stride := 12, count := 2,
    normalized := false }

/-- U16 index data holding the logical indices [1, 3].  The view carries one
spare trailing byte so that both stored values pass the strict view-length
check of DenseData::get_raw. -/
def ix13 : IndexData := .U16 { meta := metaIdxU16, view := [1, 0, 3, 0, 0] }

/-- Values view encoding (10.0, 0, 0) and (20.0, 0, 0) as Vec3 of f32 (one
spare trailing byte, as above). -/
def vals1020 : DenseData :=
  { meta := metaVals3f
    view := [0, 0, 32, 65, 0, 0, 0, 0, 0, 0, 0, 0,
             0, 0, 160, 65, 0, 0, 0, 0, 0, 0, 0, 0, 0] }

/-- The sparse accessor of the end-to-end sparse scenario: count 4, no base,
overrides at logical indices 1 and 3. -/
def sparse1020 : SparseData :=
  { meta := metaVec3f, base := none, indices := ix13, values := vals1020 }

/-- The bit pattern of 10.0f32. -/
def tenF32 : Int := 1092616192

/-- C1: the spec says SparseDataIter::next advances the logical-index
counter by exactly one for every element it produces and stops exactly when
the counter reaches meta.count.  The code only advances the counter in the
override arm: here the first call on the scenario iterator produces an
element (the zero vector) while the counter stays at 0, refuting the claim
(and with it the termination half, since the counter can then never reach
meta.count). -/
theorem c1_sparse_iter_counter_stuck :
    (SparseDataIter.next (.arr3 .F32) sparse1020.iter).map
        (fun p => (p.1, p.2.counter))
      = some (some [0, 0, 0], 0) := by
  rfl

/-- C3: the spec expects iteration over the sparse scenario (count 4, no
base, U16 indices [1,3], values 10 and 20) to produce
[[0,0,0],[10,0,0],[0,0,0],[20,0,0]] and then stop.  The code instead
produces the zero vector on every call — five calls already yield five
elements, one more than meta.count, none of them an override value. -/
theorem c3_sparse_scenario_all_zeros :
    iterCollect (.arr3 .F32) 5 sparse1020.iter
      = some (List.replicate 5 (some [0, 0, 0])) := by
  rfl

/-- C2: searching the ascending index array [1, 3] for the present value 1
(first position) never terminates: the loop state (left 0, right 1) probes
the ceiling midpoint 1, finds 3 above the target and sets right back to 1,
repeating forever.  No amount of fuel makes the loop return. -/
theorem c2_find_replacement_diverges (fuel : Nat) :
    IndexData.find_replacement fuel ix13 1 = .diverge := by
  have key : ∀ f, IndexData.bin_search_loop ix13 1 f 0 1 = .diverge := by
    intro f
    induction f with
    | zero => rfl
    | succ n ih => exact ih
  show IndexData.bin_search_loop ix13 1 fuel 0 (wrapSub ix13.count 1) = .diverge
  rw [show wrapSub ix13.count 1 = 1 from rfl]
  exact key fuel

/-- Meta for a one-byte scalar accessor with a single element. -/
def metaB1 : Meta :=
  { shape := .Scalar .U8, elem_size := 1, stride := 1, count := 1,
    normalized := false }

/-- A dense view whose buffer is exactly large enough for its one element. -/
def dExact1 : DenseData := { meta := metaB1, view := [42] }

/-- The same dense view with one spare trailing byte. -/
def dPad1 : DenseData := { meta := metaB1, view := [42, 0] }

/-- C4: the spec says get_raw(count - 1) returns Some when the buffer is
exactly large enough.  The code checks raw_end_index < view.len() strictly,
so the exactly-sized buffer [42] yields None for its only element, and one
spare byte is needed to read it; the in-range checks for index = count and
huge indices do hold. -/
theorem c4_dense_exact_fit :
    DenseData.get_raw dExact1 0 = none ∧
    DenseData.get_raw dPad1 0 = some [42] ∧
    DenseData.get_raw dExact1 1 = none ∧
    DenseData.get_raw dPad1 1 = none ∧
    DenseData.get_raw dPad1 1000000 = none := by
  refine ⟨rfl, rfl, rfl, rfl, by decide⟩


/-
  Bounds lemmas for out-of-range access (claim C5).
-/

/-- An out-of-range index always fails the count check of
DenseData::get_raw, whatever the view and the checked arithmetic do. -/
theorem DenseData.get_raw_none_of_ge (d : DenseData) (i : Nat)
    (h : d.meta.count ≤ i) : d.get_raw i = none := by
  unfold DenseData.get_raw
  split
  · rfl
  · split
    · rfl
    · rw [if_neg]
      intro hc
      omega

/-- An out-of-range typed get returns the Rust None (no panic: the element
conversion is never reached). -/
theorem DenseData.get_none_of_ge (t : TargetType) (d : DenseData) (i : Nat)
    (h : d.meta.count ≤ i) : DenseData.get t d i = some none := by
  unfold DenseData.get
  rw [DenseData.get_raw_none_of_ge d i h]

/-- An out-of-range probe of the index array returns the Rust None. -/
theorem IndexData.probe_none_of_ge (ix : IndexData) (n : Nat)
    (h : ix.count ≤ n) : ix.get n = some none := by
  cases ix with
  | U8 d =>
    simp only [IndexData.get]
    rw [DenseData.get_raw_none_of_ge d n h]
  | U16 d =>
    simp only [IndexData.get]
    rw [DenseData.get_raw_none_of_ge d n h]
  | U32 d =>
    simp only [IndexData.get]
    rw [DenseData.get_raw_none_of_ge d n h]

/-- One unfolding of the fuelled binary-search loop. -/
theorem IndexData.bin_search_loop_succ (ix : IndexData) (target f l r : Nat) :
    IndexData.bin_search_loop ix target (f + 1) l r =
      if l ≠ r then
        match ix.get (div_ceil2 ((l + r) % USIZE)) with
        | none => .fatal
        | some none => .ret none
        | some (some v) =>
          if v = target then .ret (some (div_ceil2 ((l + r) % USIZE)))
          else if v < target then
            IndexData.bin_search_loop ix target f
              ((div_ceil2 ((l + r) % USIZE) + 1) % USIZE) r
          else
            IndexData.bin_search_loop ix target f l (div_ceil2 ((l + r) % USIZE))
      else
        match ix.get l with
        | none => .fatal
        | some none => .ret none
        | some (some v) => .ret (if v = target then some l else none) := by
  rfl

/-- Every position of the index array is readable and stores a value below
the given cap. -/
def indicesReadable (ix : IndexData) (cap : Nat) : Prop :=
  ∀ n, n < ix.count → ∃ v, ix.get n = some (some v) ∧ v < cap

/-- When every stored index value is strictly below the target, the
binary-search loop always moves its left bound right, walks off the stored
range and returns None: on a nonempty index array the loop started at
(left, count - 1) with enough fuel terminates with ret none. -/
theorem IndexData.bin_loop_all_less (ix : IndexData) (target : Nat)
    (hwf : ∀ n, n < ix.count → ∃ v, ix.get n = some (some v) ∧ v < target)
    (hsz : 2 * ix.count + 2 < USIZE) (hcnt : 1 ≤ ix.count) :
    ∀ fuel l, l ≤ ix.count → ix.count + 1 - l ≤ fuel →
      IndexData.bin_search_loop ix target fuel l (ix.count - 1) = .ret none := by
  intro fuel
  induction fuel with
  | zero => intro l hl hf; omega
  | succ f ih =>
    intro l hl hf
    rw [IndexData.bin_search_loop_succ]
    by_cases hlr : l = ix.count - 1
    · rw [if_neg (by omega : ¬ l ≠ ix.count - 1)]
      obtain ⟨v, hv, hvt⟩ := hwf l (by omega)
      simp only [hv]
      rw [if_neg (by omega : ¬ v = target)]
    · rw [if_pos (by omega : l ≠ ix.count - 1)]
      have hmod : (l + (ix.count - 1)) % USIZE = l + (ix.count - 1) :=
        Nat.mod_eq_of_lt (by omega)
      by_cases hlc : l = ix.count
      · have hidx : div_ceil2 ((l + (ix.count - 1)) % USIZE) = ix.count := by
          rw [hmod]
          unfold div_ceil2
          omega
        rw [hidx]
        simp only [IndexData.probe_none_of_ge ix ix.count (le_refl _)]
      · have hlt : l < ix.count - 1 := by omega
        have hidx : div_ceil2 ((l + (ix.count - 1)) % USIZE)
            = (l + ix.count) / 2 := by
          rw [hmod]
          unfold div_ceil2
          omega
        rw [hidx]
        have hlo : l + 1 ≤ (l + ix.count) / 2 := by omega
        have hhi : (l + ix.count) / 2 ≤ ix.count - 1 := by omega
        obtain ⟨v, hv, hvt⟩ := hwf ((l + ix.count) / 2) (by omega)
        simp only [hv]
        rw [if_neg (by omega : ¬ v = target), if_pos hvt]
        have hmod2 : ((l + ix.count) / 2 + 1) % USIZE = (l + ix.count) / 2 + 1 :=
          Nat.mod_eq_of_lt (by omega)
        rw [hmod2]
        exact ih ((l + ix.count) / 2 + 1) (by omega) (by omega)

/-- On an empty index array the wrapped initial right bound is 2^64 - 1,
the first probe is out of range and the search returns None (release-mode
behaviour; a debug build would abort on the underflow of count - 1). -/
theorem IndexData.bin_loop_empty (ix : IndexData) (target : Nat)
    (h0 : ix.count = 0) (fuel : Nat) (hf : 1 ≤ fuel) :
    IndexData.bin_search_loop ix target fuel 0 (wrapSub ix.count 1) = .ret none := by
  obtain ⟨f, rfl⟩ : ∃ f, fuel = f + 1 := ⟨fuel - 1, by omega⟩
  have hw : wrapSub ix.count 1 = USIZE - 1 := by
    rw [h0]
    unfold wrapSub USIZE
    norm_num
  rw [hw, IndexData.bin_search_loop_succ,
      if_pos (by unfold USIZE; omega : (0 : Nat) ≠ USIZE - 1)]
  have hmod : (0 + (USIZE - 1)) % USIZE = USIZE - 1 :=
    Nat.mod_eq_of_lt (by unfold USIZE; omega)
  have hidx : div_ceil2 ((0 + (USIZE - 1)) % USIZE) = USIZE / 2 := by
    rw [hmod]
    unfold div_ceil2
    unfold USIZE
    omega
  rw [hidx]
  simp only [IndexData.probe_none_of_ge ix (USIZE / 2) (by rw [h0]; omega)]

/-- find_replacement returns None (and terminates) whenever every stored
index value lies strictly below the target, with fuel count + 2. -/
theorem IndexData.find_replacement_none (ix : IndexData) (target fuel : Nat)
    (hwf : ∀ n, n < ix.count → ∃ v, ix.get n = some (some v) ∧ v < target)
    (hsz : 2 * ix.count + 2 < USIZE) (hf : ix.count + 2 ≤ fuel) :
    IndexData.find_replacement fuel ix target = .ret none := by
  unfold IndexData.find_replacement
  by_cases h0 : ix.count = 0
  · exact IndexData.bin_loop_empty ix target h0 fuel (by omega)
  · have hw : wrapSub ix.count 1 = ix.count - 1 := by
      unfold wrapSub
      rw [Nat.mod_eq_of_lt (a := ix.count) (by omega),
          Nat.mod_eq_of_lt (a := 1) (by unfold USIZE; omega)]
      have h1 : ix.count + (USIZE - 1) = USIZE + (ix.count - 1) := by
        unfold USIZE
        omega
      rw [h1, Nat.add_mod_left]
      exact Nat.mod_eq_of_lt (by omega)
    rw [hw]
    exact IndexData.bin_loop_all_less ix target hwf hsz (by omega) fuel 0
      (by omega) (by omega)

/-- The hypotheses under which out-of-range reads are clean: a dense view
needs nothing; a sparse view needs a base of the same count plus a readable
override index array whose stored values stay below meta.count. -/
def Data.boundsOk : Data → Prop
  | .Dense _ => True
  | .Sparse s =>
      (∃ b, s.base = some b ∧ b.meta.count = s.meta.count) ∧
      indicesReadable s.indices s.meta.count ∧
      2 * s.indices.count + 2 < USIZE

/-- Fuel needed by the out-of-range theorem (only the sparse binary search
consumes fuel). -/
def Data.searchFuel : Data → Nat
  | .Dense _ => 0
  | .Sparse s => s.indices.count + 2

/-- C5 (amended): for every Dense accessor and every index at or past
count, get_raw and get return None; for a Sparse accessor the same holds
provided a base view of the same count is present and the override index
array is readable with values below count.  (Without a base the code
instead returns Some of zero bytes / Some of the zero value for any
non-overridden index, however large — see the counterexample.) -/
theorem c5_out_of_range_none (t : TargetType) (D : Data) (i fuel : Nat)
    (hOk : Data.boundsOk D) (hi : D.count ≤ i) (hfuel : D.searchFuel ≤ fuel) :
    Data.get_raw fuel D i = .ret none ∧ Data.get fuel t D i = .ret none := by
  cases D with
  | Dense d =>
    have hid : d.meta.count ≤ i := hi
    constructor
    · simp only [Data.get_raw]
      rw [DenseData.get_raw_none_of_ge d i hid]
    · simp only [Data.get]
      rw [DenseData.get_none_of_ge t d i hid]
  | Sparse s =>
    obtain ⟨⟨b, hb, hbc⟩, hir, hsz⟩ := hOk
    have his : s.meta.count ≤ i := hi
    have hfs : s.indices.count + 2 ≤ fuel := hfuel
    have hfr : IndexData.find_replacement fuel s.indices i = .ret none := by
      refine IndexData.find_replacement_none s.indices i fuel ?_ hsz hfs
      intro n hn
      obtain ⟨v, hv, hvc⟩ := hir n hn
      exact ⟨v, hv, lt_of_lt_of_le hvc his⟩
    have hbi : b.meta.count ≤ i := by rw [hbc]; exact his
    constructor
    · simp only [Data.get_raw, SparseData.get_raw, hfr, hb]
      rw [DenseData.get_raw_none_of_ge b i hbi]
    · simp only [Data.get, SparseData.get, hfr, hb]
      simp only [DenseData.get_none_of_ge t b i hbi]

/-- Meta for a two-byte scalar accessor with a single element. -/
def metaU16one : Meta :=
  { shape := .Scalar .U16, elem_size := 2, stride := 2, count := 1,
    normalized := false }

/-- A sparse accessor without a base view: count 1, one override at logical
index 0. -/
def sNoBase : SparseData :=
  { meta := metaU16one
    base := none
    indices := .U8 { meta := { shape := .Scalar .U8, elem_size := 1,
                               stride := 1, count := 1, normalized := false },
                     view := [0, 9] }
    values := { meta := metaU16one, view := [5, 0, 9] } }

/-- The no-base sparse accessor wrapped in the Data union. -/
def dataNoBase : Data := .Sparse sNoBase

/-- C5 counterexample: on a Sparse accessor without a base view, querying
index 5 of a count-1 accessor returns Some (two zero bytes from the static
ZEROS buffer) from get_raw and Some of the zero value from get — not None
as the claim states for every Data variant. -/
theorem c5_counterexample :
    Data.count dataNoBase < 5 ∧
    Data.get_raw 1 dataNoBase 5 = .ret (some [0, 0]) ∧
    Data.get 1 (.scalar .U16) dataNoBase 5 = .ret (some [0]) := by
  refine ⟨by decide, rfl, rfl⟩

/-- Meta for a one-byte scalar accessor with one element (witness data). -/
def metaW : Meta :=
  { shape := .Scalar .U8, elem_size := 1, stride := 1, count := 1,
    normalized := false }

/-- A sparse accessor with a base view of the same count. -/
def sWithBase : SparseData :=
  { meta := metaW
    base := some { meta := metaW, view := [7, 7] }
    indices := .U8 { meta := metaW, view := [0, 9] }
    values := { meta := metaW, view := [3, 3] } }

/-- The with-base sparse accessor wrapped in the Data union. -/
def dataWithBase : Data := .Sparse sWithBase

/-- Witness for the amended C5 theorem at a concrete sparse accessor with a
base view. -/
theorem c5_out_of_range_none_witness :
    Data.get_raw 3 dataWithBase 5 = .ret none ∧
    Data.get 3 (.scalar .U8) dataWithBase 5 = .ret none :=
  c5_out_of_range_none (.scalar .U8) dataWithBase 5 3
    ⟨⟨{ meta := metaW, view := [7, 7] }, rfl, rfl⟩,
     fun n hn => by
       have hn1 : n < 1 := hn
       have hn0 : n = 0 := by omega
       subst hn0
       exact ⟨0, rfl, by decide⟩,
     by decide⟩
    (by decide) (by decide)

/-- C6: try_with_type succeeds exactly when validate_accessor accepts the
accessor shape, returning the same structure (same meta, same byte views);
on a mismatch it returns the AccessorType error carrying the requested
type name together with the actual DataType and Dimensions, for both the
dense and the sparse variant. -/
theorem c6_try_with_type (t : TargetType) (d : DenseData) (s : SparseData) :
    (validate_accessor t d.meta.shape = true → d.try_with_type t = .ok d) ∧
    (validate_accessor t d.meta.shape = false →
      d.try_with_type t
        = .error (.AccessorType (typeName t) d.data_type d.dimensions)) ∧
    (validate_accessor t s.meta.shape = true → s.try_with_type t = .ok s) ∧
    (validate_accessor t s.meta.shape = false →
      s.try_with_type t
        = .error (.AccessorType (typeName t) s.data_type s.dimensions)) := by
  refine ⟨fun h => ?_, fun h => ?_, fun h => ?_, fun h => ?_⟩
  · unfold DenseData.try_with_type
    rw [if_pos h]
  · unfold DenseData.try_with_type
    rw [if_neg (by rw [h]; exact Bool.false_ne_true)]
  · cases s with
    | mk meta base indices values =>
      unfold SparseData.try_with_type
      rw [if_pos h]
      cases base with
      | none => rfl
      | some b => rfl
  · unfold SparseData.try_with_type
    rw [if_neg (by rw [h]; exact Bool.false_ne_true)]

/-- Witness for C6 on both branches of both variants. -/
theorem c6_try_with_type_witness :
    dPad1.try_with_type (.scalar .U8) = .ok dPad1 ∧
    dPad1.try_with_type .vec2
      = .error (.AccessorType (typeName .vec2) dPad1.data_type dPad1.dimensions) ∧
    sparse1020.try_with_type (.arr3 .F32) = .ok sparse1020 ∧
    sparse1020.try_with_type .quat
      = .error (.AccessorType (typeName .quat) sparse1020.data_type
          sparse1020.dimensions) :=
  ⟨(c6_try_with_type (.scalar .U8) dPad1 sparse1020).1 rfl,
   (c6_try_with_type .vec2 dPad1 sparse1020).2.1 rfl,
   (c6_try_with_type (.arr3 .F32) dPad1 sparse1020).2.2.1 rfl,
   (c6_try_with_type .quat dPad1 sparse1020).2.2.2 rfl⟩

/-- C9: reinterpretation via try_with_type and with_type leaves the whole
Meta — and with it normalized(), count(), element_size(), data_type() and
dimensions() — unchanged, for both the dense and the sparse structure. -/
theorem c9_meta_preserved (t u : TargetType) (d d2 : DenseData)
    (s s2 : SparseData) (hd : d.try_with_type t = .ok d2)
    (hs : s.try_with_type u = .ok s2) :
    d2.meta = d.meta ∧ s2.meta = s.meta ∧
    (DenseData.with_type d).meta = d.meta ∧
    (SparseData.with_type s).meta = s.meta ∧
    d2.normalized = d.normalized ∧ d2.count = d.count ∧
    d2.element_size = d.element_size ∧ d2.data_type = d.data_type ∧
    d2.dimensions = d.dimensions ∧
    s2.normalized = s.normalized ∧ s2.count = s.count ∧
    s2.element_size = s.element_size ∧ s2.data_type = s.data_type ∧
    s2.dimensions = s.dimensions := by
  cases hv : validate_accessor t d.meta.shape with
  | false =>
    unfold DenseData.try_with_type at hd
    simp [hv] at hd
  | true =>
    cases hv2 : validate_accessor u s.meta.shape with
    | false =>
      unfold SparseData.try_with_type at hs
      simp [hv2] at hs
    | true =>
      unfold DenseData.try_with_type at hd
      unfold SparseData.try_with_type at hs
      simp [hv] at hd
      simp [hv2] at hs
      subst hd
      subst hs
      exact ⟨rfl, rfl, rfl, rfl, rfl, rfl, rfl, rfl, rfl, rfl, rfl, rfl, rfl,
        rfl⟩

/-- Witness for C9 at concrete dense and sparse accessors. -/
theorem c9_meta_preserved_witness :
    dPad1.meta = dPad1.meta ∧ sparse1020.meta = sparse1020.meta ∧
    (DenseData.with_type dPad1).meta = dPad1.meta ∧
    (SparseData.with_type sparse1020).meta = sparse1020.meta ∧
    dPad1.normalized = dPad1.normalized ∧ dPad1.count = dPad1.count ∧
    dPad1.element_size = dPad1.element_size ∧
    dPad1.data_type = dPad1.data_type ∧
    dPad1.dimensions = dPad1.dimensions ∧
    sparse1020.normalized = sparse1020.normalized ∧
    sparse1020.count = sparse1020.count ∧
    sparse1020.element_size = sparse1020.element_size ∧
    sparse1020.data_type = sparse1020.data_type ∧
    sparse1020.dimensions = sparse1020.dimensions :=
  c9_meta_preserved (.scalar .U8) (.arr3 .F32) dPad1 dPad1 sparse1020
    sparse1020 rfl rfl

/-- C10 (implicit): DenseDataIter is fused — whenever next returns None the
state is unchanged, every further call keeps returning None with the same
state, and len keeps reporting count - counter remaining elements. -/
theorem c10_dense_iter_fused (t : TargetType) (it it2 : DenseDataIter)
    (h : it.next t = some (none, it2)) :
    it2 = it ∧ it2.next t = some (none, it2) ∧
    it2.len = it.accessor.meta.count - it.counter := by
  have hit : it2 = it := by
    unfold DenseDataIter.next at h
    by_cases hc : it.counter < it.accessor.count
    · rw [if_pos hc] at h
      cases hg : DenseData.get t it.accessor it.counter with
      | none => simp [hg] at h
      | some r =>
        cases r with
        | none =>
          simp [hg] at h
          exact h.symm
        | some v => simp [hg] at h
    · rw [if_neg hc] at h
      simp at h
      exact h.symm
  subst hit
  exact ⟨rfl, h, rfl⟩

/-- A dense iterator over the exactly-sized one-element buffer: its very
first read fails the strict bounds check, so next returns None while len
still reports one remaining element. -/
def itShort : DenseDataIter := { counter := 0, accessor := dExact1 }

/-- Witness for C10 at the concrete short-buffer iterator. -/
theorem c10_dense_iter_fused_witness :
    itShort = itShort ∧
    DenseDataIter.next (.scalar .U8) itShort = some (none, itShort) ∧
    DenseDataIter.len itShort = 1 :=
  c10_dense_iter_fused (.scalar .U8) itShort itShort rfl

/-- The component DataType each target type declares (its KIND for the
generic impls; F32 for every semantic glam type). -/
def declaredType : TargetType → DataType
  | .scalar c => kindOf c
  | .arr2 c => kindOf c
  | .arr3 c => kindOf c
  | .arr4 c => kindOf c
  | .mat2 c => kindOf c
  | .mat3 c => kindOf c
  | .mat4 c => kindOf c
  | .vec2 => .F32
  | .vec3 => .F32
  | .vec3A => .F32
  | .quat => .F32
  | .mat2f => .F32
  | .mat3f => .F32
  | .mat3Af => .F32
  | .mat4f => .F32

/-- The Dimensions each target type declares. -/
def declaredDim : TargetType → Dimensions
  | .scalar _ => .Scalar
  | .arr2 _ => .Vec2
  | .arr3 _ => .Vec3
  | .arr4 _ => .Vec4
  | .mat2 _ => .Mat2
  | .mat3 _ => .Mat3
  | .mat4 _ => .Mat4
  | .vec2 => .Vec2
  | .vec3 => .Vec3
  | .vec3A => .Vec3
  | .quat => .Vec4
  | .mat2f => .Mat2
  | .mat3f => .Mat3
  | .mat3Af => .Mat3
  | .mat4f => .Mat4

/-- C7: over the whole type matrix, validate_accessor accepts a shape
exactly when the shape's (component type, dimensionality) pair equals the
target type's declared pair — for semantic types that is the single
F32-backed shape of the matching dimensionality — and rejects every other
shape. -/
theorem c7_validate_matrix :
    ∀ (t : TargetType) (s : ElementShape),
      validate_accessor t s
        = (decide (s.data_type = declaredType t)
            && decide (s.dimensions = declaredDim t)) := by
  decide

/-- The component type each target type reads. -/
def compOf : TargetType → ElementType
  | .scalar c => c
  | .arr2 c => c
  | .arr3 c => c
  | .arr4 c => c
  | .mat2 c => c
  | .mat3 c => c
  | .mat4 c => c
  | .vec2 => .F32
  | .vec3 => .F32
  | .vec3A => .F32
  | .quat => .F32
  | .mat2f => .F32
  | .mat3f => .F32
  | .mat3Af => .F32
  | .mat4f => .F32

/-- How many components each target type reads. -/
def compCount : TargetType → Nat
  | .scalar _ => 1
  | .arr2 _ => 2
  | .arr3 _ => 3
  | .arr4 _ => 4
  | .mat2 _ => 4
  | .mat3 _ => 9
  | .mat4 _ => 16
  | .vec2 => 2
  | .vec3 => 3
  | .vec3A => 3
  | .quat => 4
  | .mat2f => 4
  | .mat3f => 9
  | .mat3Af => 9
  | .mat4f => 16

/-- Each from_element impl is the chain of its component reads. -/
theorem from_element_eq_readComps (t : TargetType) (e : Element) :
    t.from_element e = readComps (compOf t) (compCount t) e := by
  cases t <;> rfl

/-- A validated shape's byte size equals the number of components read
times the component width (checked over the whole finite matrix). -/
theorem validate_size_eq (t : TargetType) (s : ElementShape)
    (h : validate_accessor t s = true) :
    s.size = compCount t * (compOf t).size :=
  (by decide :
    ∀ (t : TargetType) (s : ElementShape),
      validate_accessor t s = true →
        s.size = compCount t * (compOf t).size) t s h

/-- One component read succeeds and consumes exactly the component width
when that many bytes remain. -/
theorem readComp_consume (c : ElementType) (e : Element)
    (h : c.size ≤ e.data.length) :
    ∃ v, readComp c e
        = some (v, { data := e.data.drop c.size, shape := e.shape }) := by
  obtain ⟨dd, sh⟩ := e
  cases c with
  | U8 =>
    cases dd with
    | nil => simp [ElementType.size] at h
    | cons b rest => exact ⟨_, rfl⟩
  | I8 =>
    cases dd with
    | nil => simp [ElementType.size] at h
    | cons b rest => exact ⟨_, rfl⟩
  | U16 =>
    cases dd with
    | nil => simp [ElementType.size] at h
    | cons b0 d0 =>
      cases d0 with
      | nil => simp [ElementType.size] at h
      | cons b1 rest => exact ⟨_, rfl⟩
  | I16 =>
    cases dd with
    | nil => simp [ElementType.size] at h
    | cons b0 d0 =>
      cases d0 with
      | nil => simp [ElementType.size] at h
      | cons b1 rest => exact ⟨_, rfl⟩
  | U32 =>
    cases dd with
    | nil => simp [ElementType.size] at h
    | cons b0 d0 =>
      cases d0 with
      | nil => simp [ElementType.size] at h
      | cons b1 d1 =>
        cases d1 with
        | nil => simp [ElementType.size] at h
        | cons b2 d2 =>
          cases d2 with
          | nil => simp [ElementType.size] at h
          | cons b3 rest => exact ⟨_, rfl⟩
  | F32 =>
    cases dd with
    | nil => simp [ElementType.size] at h
    | cons b0 d0 =>
      cases d0 with
      | nil => simp [ElementType.size] at h
      | cons b1 d1 =>
        cases d1 with
        | nil => simp [ElementType.size] at h
        | cons b2 d2 =>
          cases d2 with
          | nil => simp [ElementType.size] at h
          | cons b3 rest => exact ⟨_, rfl⟩

/-- A chain of n component reads succeeds and consumes exactly n times the
component width when that many bytes remain. -/
theorem readComps_consume (c : ElementType) :
    ∀ (n : Nat) (e : Element), n * c.size ≤ e.data.length →
      ∃ v, readComps c n e
          = some (v, { data := e.data.drop (n * c.size), shape := e.shape }) := by
  intro n
  induction n with
  | zero =>
    intro e h
    refine ⟨[], ?_⟩
    simp [readComps]
  | succ n ih =>
    intro e h
    rw [Nat.succ_mul] at h
    have h1 : c.size ≤ e.data.length := by omega
    obtain ⟨v, hv⟩ := readComp_consume c e h1
    have h2 : n * c.size ≤ (e.data.drop c.size).length := by
      rw [List.length_drop]
      omega
    obtain ⟨vs, hvs⟩ :=
      ih { data := e.data.drop c.size, shape := e.shape } h2
    refine ⟨v :: vs, ?_⟩
    simp only [readComps, hv, hvs]
    rw [List.drop_drop]
    rw [show c.size + n * c.size = (n + 1) * c.size by ring]

/-- C8: once a shape has been validated for a target type, from_element on
an element slice holding at least shape.size() bytes succeeds (never
reaches a primitive-read panic) and consumes exactly shape.size() bytes
from the cursor; conversely each primitive read is fatal when fewer bytes
remain than its width requires. -/
theorem c8_from_element_consumes (t : TargetType) (s : ElementShape)
    (data : List Nat) (hv : validate_accessor t s = true)
    (hlen : s.size ≤ data.length) :
    (∃ v, t.from_element { data := data, shape := s }
        = some (v, { data := data.drop s.size, shape := s })) ∧
    (∀ e : Element, e.data.length < 1 → e.read_u8 = none) ∧
    (∀ e : Element, e.data.length < 2 → e.read_u16 = none) ∧
    (∀ e : Element, e.data.length < 4 → e.read_u32 = none) ∧
    (∀ e : Element, e.data.length < 4 → e.read_f32 = none) := by
  refine ⟨?_, ?_, ?_, ?_, ?_⟩
  · have hsz : s.size = compCount t * (compOf t).size := validate_size_eq t s hv
    obtain ⟨v, hread⟩ := readComps_consume (compOf t) (compCount t)
      { data := data, shape := s } (by rw [← hsz]; exact hlen)
    refine ⟨v, ?_⟩
    rw [from_element_eq_readComps, hread, hsz]
  · intro e he
    obtain ⟨dd, sh⟩ := e
    cases dd with
    | nil => rfl
    | cons b rest => simp only [List.length_cons] at he; omega
  · intro e he
    obtain ⟨dd, sh⟩ := e
    cases dd with
    | nil => rfl
    | cons b0 d0 =>
      cases d0 with
      | nil => rfl
      | cons b1 rest => simp only [List.length_cons] at he; omega
  · intro e he
    obtain ⟨dd, sh⟩ := e
    cases dd with
    | nil => rfl
    | cons b0 d0 =>
      cases d0 with
      | nil => rfl
      | cons b1 d1 =>
        cases d1 with
        | nil => rfl
        | cons b2 d2 =>
          cases d2 with
          | nil => rfl
          | cons b3 rest => simp only [List.length_cons] at he; omega
  · intro e he
    obtain ⟨dd, sh⟩ := e
    cases dd with
    | nil => rfl
    | cons b0 d0 =>
      cases d0 with
      | nil => rfl
      | cons b1 d1 =>
        cases d1 with
        | nil => rfl
        | cons b2 d2 =>
          cases d2 with
          | nil => rfl
          | cons b3 rest => simp only [List.length_cons] at he; omega

/-- Witness for C8: a Vec3 of f32 element of exactly twelve bytes is fully
consumed by the matching array target type. -/
theorem c8_from_element_consumes_witness :
    validate_accessor (.arr3 .F32) (.Vec3 .F32) = true ∧
    ElementShape.size (.Vec3 .F32)
        ≤ List.length [0, 0, 32, 65, 0, 0, 0, 0, 0, 0, 0, 0] ∧
    (∃ v, TargetType.from_element (.arr3 .F32)
        { data := [0, 0, 32, 65, 0, 0, 0, 0, 0, 0, 0, 0], shape := .Vec3 .F32 }
      = some (v, { data := List.drop (ElementShape.size (.Vec3 .F32))
                     [0, 0, 32, 65, 0, 0, 0, 0, 0, 0, 0, 0],
                   shape := .Vec3 .F32 })) :=
  ⟨by decide, by decide,
   (c8_from_element_consumes (.arr3 .F32) (.Vec3 .F32)
     [0, 0, 32, 65, 0, 0, 0, 0, 0, 0, 0, 0] (by decide) (by decide)).1⟩
